import Mathlib

/-!
Shallow embedding of `src/src/hotspot/share/jvmci/jvmciCompiler.cpp`
(class `JVMCICompiler`: bootstrap coordinator, forced-compilation policy,
lifecycle controller, compilation delegate and counters).

External collaborators (compile broker queue, JVMCI runtime bridge, module
registry, VM flags) appear as explicit environment records; calls into them
become reads of those records, indexed by poll round where the source reads
them repeatedly inside a loop.
-/

namespace JVMCIModel

/-- Module references (the `module()` oops compared with `==` in the source)
are identified by numeric ids. -/
abbrev ModuleRef := Nat

/-- A method as seen by this core: the predicates the bootstrap filter reads
(`is_native`, `is_static`, `is_initializer`) and the module of its declaring
class (`method->method_holder()->module()->module()`). The source name
`is_initializer` is shortened to `is_init`. -/
structure Method where
  is_native : Bool
  is_static : Bool
  is_init : Bool
  moduleId : ModuleRef
deriving DecidableEq

/-- State of a `JVMCICompiler` instance: the four fields written by the
constructor (lines 37-44). The counter fields are declared in the class
header outside src; per the spec they are unsigned and monotonically
non-decreasing, so they are modelled as `Nat`. -/
structure JVMCICompiler where
  bootstrapping : Bool
  bootstrap_compilation_request_handled : Bool
  methods_compiled : Nat
  global_compilation_ticks : Nat
deriving DecidableEq

/-- The constructor body (lines 37-41): all flags false, all counters zero. -/
def JVMCICompiler.construct : JVMCICompiler :=
  ⟨false, false, 0, 0⟩

/-- Outcome of running the constructor against the static `_instance` slot:
either a fresh instance, or the failure of `assert(_instance == NULL,
"only one instance allowed")` (line 42). -/
inductive ConstructOutcome
  | ok (inst : JVMCICompiler)
  | assertOnlyOneInstance
deriving DecidableEq

/-- Constructing an instance while another is registered trips the assert;
otherwise the fresh instance is stored into `_instance` (lines 42-43). -/
def registerInstance (slot : Option JVMCICompiler) :
    ConstructOutcome × Option JVMCICompiler :=
  match slot with
  | some i => (.assertOnlyOneInstance, some i)
  | none => (.ok .construct, some .construct)

/-- Number of constructor runs that pass the singleton assert in a sequence
of `n` construction attempts starting from a given `_instance` slot. -/
def runConstructs : Nat → Option JVMCICompiler → Nat
  | 0, _ => 0
  | n + 1, slot =>
    match registerInstance slot with
    | (.ok _, slot2) => 1 + runConstructs n slot2
    | (.assertOnlyOneInstance, slot2) => runConstructs n slot2

/-- The JVMCI runtime bridge object as `force_comp_at_level_simple` queries
it: whether `probe_HotSpotJVMCIRuntime()` yields a null receiver, and the
`excludeFromJVMCICompilation` module list (null modelled as `none`). -/
structure JVMCIRuntimeM where
  hotSpotJVMCIRuntime_is_null : Bool
  excludeFromJVMCICompilation : Option (List ModuleRef)

/-- VM configuration read by the policy: the `UseJVMCINativeLibrary` flag and
the `JVMCI::java_runtime()` handle (`none` models NULL). -/
structure VMConfig where
  useJVMCINativeLibrary : Bool
  java_runtime : Option JVMCIRuntimeM

/-- The membership loop of lines 136-140: scan the exclusion array in order,
return true on the first element equal to the method's module oop. -/
def containsModule : List ModuleRef → ModuleRef → Bool
  | [], _ => false
  | m :: rest, target => if m = target then true else containsModule rest target

/-- `JVMCICompiler::force_comp_at_level_simple` (lines 115-145): false while
bootstrapping; false in `UseJVMCINativeLibrary` mode; otherwise false when
the runtime handle is NULL, the probed receiver is null, or the exclusion
list is null; else scan the list for the method's declaring module. -/
def force_comp_at_level_simple (st : JVMCICompiler) (cfg : VMConfig)
    (method : Method) : Bool :=
  if st.bootstrapping then false
  else if cfg.useJVMCINativeLibrary then false
  else
    match cfg.java_runtime with
    | some runtime =>
      if runtime.hotSpotJVMCIRuntime_is_null then false
      else
        match runtime.excludeFromJVMCICompilation with
        | some excludeModules => containsModule excludeModules method.moduleId
        | none => false
    | none => false

/-- `JVMCICompiler::inc_methods_compiled` (lines 167-170): increment both
the methods-compiled counter and the global compilation ticks. -/
def inc_methods_compiled (c : JVMCICompiler) : JVMCICompiler :=
  { c with
      methods_compiled := c.methods_compiled + 1
      global_compilation_ticks := c.global_compilation_ticks + 1 }

/-- `JVMCICompiler::inc_global_compilation_ticks` (lines 172-174): increment
only the global compilation ticks. -/
def inc_global_compilation_ticks (c : JVMCICompiler) : JVMCICompiler :=
  { c with global_compilation_ticks := c.global_compilation_ticks + 1 }

/-- The operations of this core that write the counter fields (all other
operations of the file read them at most). -/
inductive CounterOp
  | incMethodsCompiled
  | incGlobalCompilationTicks
deriving DecidableEq

/-- Apply a counter operation to the instance state. -/
def applyCounterOp : CounterOp → JVMCICompiler → JVMCICompiler
  | .incMethodsCompiled, c => inc_methods_compiled c
  | .incGlobalCompilationTicks, c => inc_global_compilation_ticks c

/-- The abstract-compiler lifecycle state: `uninit` models `uninitialized`,
`inited` models `initialized` (the source enum names contain a reserved
word of the proof tooling and are shortened here). -/
inductive CState
  | uninit
  | inited
deriving DecidableEq

/-- Lifecycle state plus a count of `CompilationPolicy::completed_vm_startup`
notifications, recording how often line 56 has executed. -/
structure LifecycleState where
  comp_state : CState
  vm_startup_completed_count : Nat
deriving DecidableEq

/-- A fresh lifecycle: uninitialized state, no notification delivered yet. -/
def freshLifecycle : LifecycleState :=
  ⟨.uninit, 0⟩

/-- The three global flags tested on line 48. -/
structure VMFlags where
  useCompiler : Bool
  enableJVMCI : Bool
  useJVMCICompiler : Bool
deriving DecidableEq

/-- Modelled from the spec: `should_perform_init()` lives in the abstract
compiler base class, which is not under src. Per the spec it is the
bootstrap-gate check of the one-way Uninitialized-to-Initialized transition:
it answers true only when initialization has not yet been performed, so that
only the first qualifying call has effect. -/
def should_perform_init (s : CState) : Bool :=
  match s with
  | .uninit => true
  | .inited => false

/-- `JVMCICompiler::initialize` (lines 47-57, named `initCompiler` here
because the source name is reserved by the proof tooling): return with no
state change when `UseCompiler`, `EnableJVMCI` or `UseJVMCICompiler` is off
or `should_perform_init()` answers false; otherwise set the state to
initialized and notify `CompilationPolicy::completed_vm_startup`. -/
def initCompiler (f : VMFlags) (s : LifecycleState) : LifecycleState :=
  if !f.useCompiler || !f.enableJVMCI || !f.useJVMCICompiler
      || !(should_perform_init s.comp_state) then
    s
  else
    ⟨.inited, s.vm_startup_completed_count + 1⟩

/-- `n` successive calls of `initCompiler` under the same flags. -/
def iterInit (f : VMFlags) : Nat → LifecycleState → LifecycleState
  | 0, s => s
  | n + 1, s => iterInit f n (initCompiler f s)

/-- Compilation levels of the broker; `bootstrap` submits only at
`full_optimization` (`CompLevel_full_optimization`). -/
inductive CompLevel
  | level_none
  | simple
  | limited_profile
  | full_profile
  | full_optimization
deriving DecidableEq

/-- Compile-task reasons; `bootstrap` uses `Reason_Bootstrap`. -/
inductive CompileReason
  | Bootstrap
deriving DecidableEq

/-- `InvocationEntryBci`, the whole-method entry bci passed on line 86. -/
def InvocationEntryBci : Int := -1

/-- A job handed to `CompileBroker::compile_method` on line 86. -/
structure CompileJob where
  method : Method
  entry_bci : Int
  comp_level : CompLevel
  hot_count : Nat
  reason : CompileReason
deriving DecidableEq

/-- The filter of line 83: not native, not static, not a constructor or
class initializer. -/
def qualifiesForBootstrap (m : Method) : Bool :=
  !m.is_native && !m.is_static && !m.is_init

/-- The submission phase of `bootstrap` (lines 78-88): for each qualifying
method of `Object_klass()`, submit a job at `CompLevel_full_optimization`
with `hot_count = 10` and reason `Reason_Bootstrap`. -/
def bootstrapSubmissions (objectMethods : List Method) : List CompileJob :=
  (objectMethods.filter qualifiesForBootstrap).map
    (fun mh => ⟨mh, InvocationEntryBci, .full_optimization, 10, .Bootstrap⟩)

/-- Failures of the runtime bridge (`bootstrap_finished(CHECK)` may raise a
pending exception, which `CHECK` propagates to the caller). -/
inductive JVMCIError
  | bootstrapFinishedFailure (code : Nat)
deriving DecidableEq

/-- The environment `bootstrap` runs against: the `-Xint` mode test of line
60, the method array of `Object_klass()`, the broker queue size and the
externally-set `_bootstrap_compilation_request_handled` flag as observed at
each successive poll round, and the outcome of the runtime bridge's
`bootstrap_finished` call. -/
structure BootstrapEnv where
  interpreter_only : Bool
  objectMethods : List Method
  queue_size : Nat → Nat
  request_handled : Nat → Bool
  bootstrap_finished : Except JVMCIError Unit

/-- The poll loop of lines 90-106, fuel-indexed: each recursive call is one
`os::sleep(100)` followed by a read of `queue_size` and of the handled flag;
`none` means the loop is still running after consuming the given fuel.
The inner do-while repeats while the request-handled flag is unset, this is
still the first round, and the queue reads empty; once the inner loop exits,
the outer do-while repeats (with `first_round` now false) while the queue
reads non-empty, and finishes when it reads zero, yielding the exit round. -/
def bootstrapPoll (env : BootstrapEnv) : Nat → Nat → Bool → Option Nat
  | 0, _, _ => none
  | fuel + 1, t, first_round =>
    let qsize := env.queue_size t
    if !env.request_handled t && first_round && qsize == 0 then
      bootstrapPoll env fuel (t + 1) true
    else if qsize != 0 then
      bootstrapPoll env fuel (t + 1) false
    else
      some t

/-- Observable events of a `bootstrap` run: writes of `_bootstrapping`,
submissions to the broker, and the call into `bootstrap_finished`. -/
inductive BEvent
  | setBootstrapping (b : Bool)
  | submit (job : CompileJob)
  | callBootstrapFinished
deriving DecidableEq

/-- `JVMCICompiler::bootstrap` (lines 59-113), fuel-indexed: return at once
in `-Xint` mode; otherwise set `_bootstrapping`, submit the qualifying
`Object` methods, run the poll loop, and on drain completion clear
`_bootstrapping` and then call the runtime bridge's `bootstrap_finished`,
whose outcome propagates to the caller. `none` means the poll loop has not
finished within the given fuel. -/
def bootstrap (env : BootstrapEnv) (fuel : Nat) :
    Option (List BEvent × Except JVMCIError Unit) :=
  if env.interpreter_only then
    some ([], .ok ())
  else
    match bootstrapPoll env fuel 0 true with
    | none => none
    | some _ =>
      some (BEvent.setBootstrapping true
              :: (bootstrapSubmissions env.objectMethods).map BEvent.submit
              ++ [BEvent.setBootstrapping false, BEvent.callBootstrapFinished],
            env.bootstrap_finished)

/-- Termination of a `bootstrap` run: some amount of fuel suffices. -/
def bootstrapTerminates (env : BootstrapEnv) : Prop :=
  ∃ fuel, (bootstrap env fuel).isSome

/-- The environment of the zero-qualifying-methods edge case: not `-Xint`,
no methods, the queue reads 0 at every poll and the request-handled flag is
never set. -/
def emptyBootstrapEnv : BootstrapEnv :=
  ⟨false, [], fun _ => 0, fun _ => false, .ok ()⟩

/-- Outcomes of the generic direct-compilation entry point: either the fatal
`ShouldNotReachHere()` diagnostic or a normal return. -/
inductive CompileOutcome
  | fatal_unreachable
  | returned
deriving DecidableEq

/-- `JVMCICompiler::compile_method` (lines 148-150): the body is exactly
`ShouldNotReachHere()`; no path returns normally. The `ciEnv` and
`DirectiveSet` arguments are opaque to this core and modelled as ids. -/
def compile_method (env : Nat) (target : Method) (entry_bci : Int)
    (directive : Nat) : CompileOutcome :=
  .fatal_unreachable

/-- A concrete qualifying method of the base object type: not native, not
static, not a constructor, declared in module 1. -/
def mC6 : Method :=
  ⟨false, false, false, 1⟩

/-- A concrete bootstrap environment for a full run: one qualifying and one
native method, the request-handled flag already set, an empty queue, and a
succeeding finish notification. -/
def envC6 : BootstrapEnv :=
  ⟨false, [mC6, ⟨true, false, false, 2⟩], fun _ => 0, fun _ => true, .ok ()⟩

/-- The event trace `bootstrap envC6` produces once the queue drains. -/
def traceC6 : List BEvent :=
  [.setBootstrapping true,
   .submit ⟨mC6, InvocationEntryBci, .full_optimization, 10, .Bootstrap⟩,
   .setBootstrapping false, .callBootstrapFinished]

/-- A concrete bootstrap environment whose finish notification fails. -/
def envC7 : BootstrapEnv :=
  ⟨false, [], fun _ => 0, fun _ => true,
   .error (.bootstrapFinishedFailure 42)⟩

/-- The event trace `bootstrap envC7` produces once the queue drains. -/
def traceC7 : List BEvent :=
  [.setBootstrapping true, .setBootstrapping false, .callBootstrapFinished]

/-- The in-order scan of the exclusion array decides exact list membership,
so the outcome is independent of element order. -/
lemma containsModule_eq_mem (l : List ModuleRef) (x : ModuleRef) :
    containsModule l x = true ↔ x ∈ l := by
  induction l with
  | nil => simp [containsModule]
  | cons m rest ih =>
    by_cases h : m = x
    · simp [containsModule, h]
    · simp only [containsModule, if_neg h, ih, List.mem_cons]
      constructor
      · exact Or.inr
      · rintro (hx | hx)
        · exact absurd hx.symm h
        · exact hx

/-- Claim C2: while `_bootstrapping` is true, `force_comp_at_level_simple`
returns false for every method, whatever the VM configuration, runtime
bridge state and exclusion-list contents. -/
theorem c2_force_false_while_bootstrapping (st : JVMCICompiler)
    (cfg : VMConfig) (method : Method) (h : st.bootstrapping = true) :
    force_comp_at_level_simple st cfg method = false := by
  simp [force_comp_at_level_simple, h]

/-- Witness for C2 at a bootstrapping instance with a non-null bridge and a
non-empty exclusion list that matches the method's module. -/
theorem c2_witness :
    (⟨true, false, 0, 0⟩ : JVMCICompiler).bootstrapping = true
    ∧ force_comp_at_level_simple ⟨true, false, 0, 0⟩
        ⟨false, some ⟨false, some [5]⟩⟩ ⟨false, false, false, 5⟩ = false :=
  ⟨rfl, c2_force_false_while_bootstrapping _ _ _ rfl⟩

/-- Claim C3: when not bootstrapping, not in native-library mode, the runtime
handle is non-null, the probed receiver is non-null and the exclusion list is
non-null, `force_comp_at_level_simple` returns true exactly when the method's
declaring module is a member of the list. -/
theorem c3_force_iff_module_excluded (st : JVMCICompiler) (cfg : VMConfig)
    (rt : JVMCIRuntimeM) (mods : List ModuleRef) (method : Method)
    (hb : st.bootstrapping = false) (hn : cfg.useJVMCINativeLibrary = false)
    (hr : cfg.java_runtime = some rt)
    (hrec : rt.hotSpotJVMCIRuntime_is_null = false)
    (hex : rt.excludeFromJVMCICompilation = some mods) :
    force_comp_at_level_simple st cfg method = true ↔ method.moduleId ∈ mods := by
  simp [force_comp_at_level_simple, hb, hn, hr, hrec, hex, containsModule_eq_mem]

/-- Witness for C3: exclusion list containing modules 3 and 7, a method in
module 7. -/
theorem c3_witness :
    (⟨false, false, 0, 0⟩ : JVMCICompiler).bootstrapping = false
    ∧ (⟨false, some ⟨false, some [3, 7]⟩⟩ : VMConfig).useJVMCINativeLibrary = false
    ∧ (force_comp_at_level_simple ⟨false, false, 0, 0⟩
         ⟨false, some ⟨false, some [3, 7]⟩⟩ ⟨false, false, false, 7⟩ = true
       ↔ (7 : ModuleRef) ∈ [3, 7]) :=
  ⟨rfl, rfl,
    c3_force_iff_module_excluded _ _ ⟨false, some [3, 7]⟩ [3, 7] _
      rfl rfl rfl rfl rfl⟩

/-- Claim C4: `force_comp_at_level_simple` fails open, returning false (it is
Bool-valued, so it can signal no error) whenever the backend runs as a native
library, the runtime handle is NULL, the probed receiver is null, or the
exclusion list is null. -/
theorem c4_fail_open (st : JVMCICompiler) (cfg : VMConfig) (method : Method)
    (h : cfg.useJVMCINativeLibrary = true
         ∨ cfg.java_runtime = none
         ∨ ∃ rt, cfg.java_runtime = some rt
             ∧ (rt.hotSpotJVMCIRuntime_is_null = true
                ∨ rt.excludeFromJVMCICompilation = none)) :
    force_comp_at_level_simple st cfg method = false := by
  by_cases hb : st.bootstrapping
  · simp [force_comp_at_level_simple, hb]
  · rcases h with h | h | ⟨rt, hrt, h2⟩
    · simp [force_comp_at_level_simple, hb, h]
    · simp [force_comp_at_level_simple, hb, h]
    · rcases h2 with h2 | h2 <;> simp [force_comp_at_level_simple, hb, hrt, h2]

/-- Witness for C4 at a configuration whose runtime handle is NULL. -/
theorem c4_witness :
    ((⟨false, none⟩ : VMConfig).useJVMCINativeLibrary = true
     ∨ (⟨false, none⟩ : VMConfig).java_runtime = none
     ∨ ∃ rt, (⟨false, none⟩ : VMConfig).java_runtime = some rt
         ∧ (rt.hotSpotJVMCIRuntime_is_null = true
            ∨ rt.excludeFromJVMCICompilation = none))
    ∧ force_comp_at_level_simple ⟨false, false, 0, 0⟩ ⟨false, none⟩
        ⟨false, false, false, 5⟩ = false :=
  ⟨Or.inr (Or.inl rfl), c4_fail_open _ _ _ (Or.inr (Or.inl rfl))⟩

/-- Claim C9: `inc_methods_compiled` raises both counters by exactly one,
`inc_global_compilation_ticks` raises only the tick counter by one and leaves
the method counter unchanged, and every counter-writing operation of this
core leaves both counters no smaller than before. -/
theorem c9_counter_increments (c : JVMCICompiler) :
    (inc_methods_compiled c).methods_compiled = c.methods_compiled + 1
    ∧ (inc_methods_compiled c).global_compilation_ticks
        = c.global_compilation_ticks + 1
    ∧ (inc_global_compilation_ticks c).global_compilation_ticks
        = c.global_compilation_ticks + 1
    ∧ (inc_global_compilation_ticks c).methods_compiled = c.methods_compiled
    ∧ ∀ op : CounterOp,
        c.methods_compiled ≤ (applyCounterOp op c).methods_compiled
        ∧ c.global_compilation_ticks
            ≤ (applyCounterOp op c).global_compilation_ticks := by
  refine ⟨rfl, rfl, rfl, rfl, ?_⟩
  intro op
  cases op <;>
    simp [applyCounterOp, inc_methods_compiled, inc_global_compilation_ticks]

/-- A registered instance blocks every later construction, so the success
count of any run starting from an occupied slot is zero. -/
lemma runConstructs_some (n : Nat) (i : JVMCICompiler) :
    runConstructs n (some i) = 0 := by
  induction n with
  | zero => rfl
  | succ n ih => simp [runConstructs, registerInstance, ih]

/-- Claim C10: a freshly constructed instance has both flags false and both
counters zero, constructing while an instance is registered trips the
singleton assert, and any sequence of construction attempts registers at
most one instance. -/
theorem c10_fresh_instance_singleton :
    JVMCICompiler.construct.bootstrapping = false
    ∧ JVMCICompiler.construct.bootstrap_compilation_request_handled = false
    ∧ JVMCICompiler.construct.methods_compiled = 0
    ∧ JVMCICompiler.construct.global_compilation_ticks = 0
    ∧ (∀ i, (registerInstance (some i)).1 = .assertOnlyOneInstance)
    ∧ ∀ n, runConstructs n none ≤ 1 := by
  refine ⟨rfl, rfl, rfl, rfl, fun i => rfl, ?_⟩
  intro n
  cases n with
  | zero => simp [runConstructs]
  | succ n => simp [runConstructs, registerInstance, runConstructs_some]

/-- A call for which a disable flag holds or the gate check answers false
returns with no state change. -/
lemma initCompiler_noop (g : VMFlags) (s : LifecycleState)
    (h : g.useCompiler = false ∨ g.enableJVMCI = false
         ∨ g.useJVMCICompiler = false
         ∨ should_perform_init s.comp_state = false) :
    initCompiler g s = s := by
  rcases h with h | h | h | h <;> simp [initCompiler, h]

/-- Once the state is initialized, any number of further calls is a no-op. -/
lemma iterInit_inited (f : VMFlags) (n : Nat) (s : LifecycleState)
    (h : s.comp_state = .inited) :
    iterInit f n s = s := by
  induction n with
  | zero => rfl
  | succ n ih =>
    have hs : initCompiler f s = s :=
      initCompiler_noop f s (Or.inr (Or.inr (Or.inr (by rw [h]; rfl))))
    simp [iterInit, hs, ih]

/-- Claim C5: `initialize` is idempotent. With all enabling flags on, N > 1
successive calls from a fresh lifecycle leave the state initialized with
exactly one `completed_vm_startup` notification (so exactly one transition),
and any call under a disable flag or after initialization changes nothing. -/
theorem c5_init_idempotent (f : VMFlags) (N : Nat) (hN : 1 < N)
    (hf : f.useCompiler = true ∧ f.enableJVMCI = true
          ∧ f.useJVMCICompiler = true) :
    (iterInit f N freshLifecycle).comp_state = .inited
    ∧ (iterInit f N freshLifecycle).vm_startup_completed_count = 1
    ∧ ∀ (g : VMFlags) (s : LifecycleState),
        (g.useCompiler = false ∨ g.enableJVMCI = false
         ∨ g.useJVMCICompiler = false
         ∨ should_perform_init s.comp_state = false) →
        initCompiler g s = s := by
  obtain ⟨h1, h2, h3⟩ := hf
  cases N with
  | zero => exact absurd hN (by decide)
  | succ n =>
    have hfirst : initCompiler f freshLifecycle = ⟨.inited, 1⟩ := by
      simp [initCompiler, freshLifecycle, should_perform_init, h1, h2, h3]
    have hrest : iterInit f n (⟨.inited, 1⟩ : LifecycleState) = ⟨.inited, 1⟩ :=
      iterInit_inited f n _ rfl
    refine ⟨?_, ?_, initCompiler_noop⟩ <;> simp [iterInit, hfirst, hrest]

/-- Witness for C5: three calls under fully enabled flags yield an
initialized state with exactly one notification. -/
theorem c5_witness :
    (1 : Nat) < 3
    ∧ (iterInit ⟨true, true, true⟩ 3 freshLifecycle).comp_state = .inited
    ∧ (iterInit ⟨true, true, true⟩ 3 freshLifecycle).vm_startup_completed_count
        = 1 := by
  have h := c5_init_idempotent ⟨true, true, true⟩ 3 (by decide) ⟨rfl, rfl, rfl⟩
  exact ⟨by decide, h.1, h.2.1⟩

/-- Claim C8: `compile_method` reaches the fatal unreachable diagnostic on
every input and never returns normally. -/
theorem c8_compile_method_unreachable (env : Nat) (target : Method)
    (entry_bci : Int) (directive : Nat) :
    compile_method env target entry_bci directive = .fatal_unreachable
    ∧ compile_method env target entry_bci directive ≠ .returned :=
  ⟨rfl, by simp [compile_method]⟩

/-- With the handled flag never set and the queue reading 0 at every poll,
the first-round condition of the inner do-while holds at every round, so the
poll loop consumes any amount of fuel without exiting. -/
lemma bootstrapPoll_stuck (env : BootstrapEnv)
    (hq : ∀ t, env.queue_size t = 0)
    (hh : ∀ t, env.request_handled t = false) :
    ∀ fuel t, bootstrapPoll env fuel t true = none := by
  intro fuel
  induction fuel with
  | zero => intro t; rfl
  | succ fuel ih =>
    intro t
    simp [bootstrapPoll, hq t, hh t, ih (t + 1)]

/-- Claim C1 as amended: with no `-Xint` early return, a queue that reads 0
at every poll and a request-handled flag that is never set, `bootstrap` does
not complete for any amount of fuel: the poll loop blocks indefinitely. -/
theorem c1_amended_bootstrap_blocks (env : BootstrapEnv)
    (hm : env.interpreter_only = false)
    (hq : ∀ t, env.queue_size t = 0)
    (hh : ∀ t, env.request_handled t = false) :
    ∀ fuel, bootstrap env fuel = none := by
  intro fuel
  simp [bootstrap, hm, bootstrapPoll_stuck env hq hh fuel 0]

/-- Claim C1, counterexample: in the zero-qualifying-methods environment with
queue size 0 forever and the handled flag never set, `bootstrap` does NOT
terminate, contrary to the claim. -/
theorem c1_counterexample_no_termination :
    ¬ bootstrapTerminates emptyBootstrapEnv := by
  rintro ⟨fuel, hf⟩
  have h := bootstrapPoll_stuck emptyBootstrapEnv
    (fun _ => rfl) (fun _ => rfl) fuel 0
  have hmode : emptyBootstrapEnv.interpreter_only = false := by rfl
  have hb : bootstrap emptyBootstrapEnv fuel = none := by
    simp [bootstrap, h, hmode]
  rw [hb] at hf
  simp at hf

/-- Witness for the amended C1 at the concrete empty environment. -/
theorem c1_witness :
    emptyBootstrapEnv.interpreter_only = false
    ∧ bootstrap emptyBootstrapEnv 7 = none :=
  ⟨rfl, c1_amended_bootstrap_blocks emptyBootstrapEnv rfl
          (fun _ => rfl) (fun _ => rfl) 7⟩

/-- A completed `bootstrap` run (outside `-Xint` mode) produces exactly the
flag-set, submissions, flag-clear, finish-call trace, and returns the
outcome of the bridge notification. -/
lemma bootstrap_some (env : BootstrapEnv) (fuel : Nat) (tr : List BEvent)
    (r : Except JVMCIError Unit) (hm : env.interpreter_only = false)
    (h : bootstrap env fuel = some (tr, r)) :
    tr = BEvent.setBootstrapping true
           :: (bootstrapSubmissions env.objectMethods).map BEvent.submit
           ++ [BEvent.setBootstrapping false, BEvent.callBootstrapFinished]
    ∧ r = env.bootstrap_finished := by
  rw [bootstrap, hm] at h
  cases hp : bootstrapPoll env fuel 0 true with
  | none => rw [hp] at h; exact absurd h (by simp)
  | some t =>
    rw [hp] at h
    simp only [Bool.false_eq_true, if_false, Option.some.injEq,
      Prod.mk.injEq] at h
    exact ⟨h.1.symm, h.2.symm⟩

/-- Submit events of the completed trace are exactly the submissions. -/
lemma submit_mem_trace_iff (ms : List Method) (j : CompileJob) :
    (BEvent.submit j
       ∈ BEvent.setBootstrapping true :: (bootstrapSubmissions ms).map BEvent.submit
           ++ [BEvent.setBootstrapping false, BEvent.callBootstrapFinished])
    ↔ j ∈ bootstrapSubmissions ms := by
  simp

/-- A method receives a submission exactly when it is in the enumerated list
and passes the not-native, not-static, not-initializer filter. -/
lemma method_mem_bootstrapSubmissions (ms : List Method) (m : Method) :
    (∃ j ∈ bootstrapSubmissions ms, j.method = m)
    ↔ m ∈ ms ∧ qualifiesForBootstrap m = true := by
  simp [bootstrapSubmissions, List.mem_filter]

/-- Every submission carries the full-optimization level, the Bootstrap
reason, hot count 10 and the whole-method entry bci. -/
lemma bootstrapSubmissions_shape (ms : List Method) (j : CompileJob)
    (hj : j ∈ bootstrapSubmissions ms) :
    j.comp_level = .full_optimization ∧ j.reason = .Bootstrap
    ∧ j.hot_count = 10 ∧ j.entry_bci = InvocationEntryBci := by
  simp only [bootstrapSubmissions, List.mem_map] at hj
  obtain ⟨mh, _, rfl⟩ := hj
  exact ⟨rfl, rfl, rfl, rfl⟩

/-- Claim C6: a completed bootstrap run outside `-Xint` mode submits a job at
the highest tier with reason Bootstrap and a positive invocation-count hint
for exactly the non-native, non-static, non-initializer methods of the base
object type, and for no other methods. -/
theorem c6_bootstrap_submissions (env : BootstrapEnv) (fuel : Nat)
    (tr : List BEvent) (r : Except JVMCIError Unit) (m : Method)
    (hm : env.interpreter_only = false)
    (hrun : bootstrap env fuel = some (tr, r)) :
    ((∃ j, BEvent.submit j ∈ tr ∧ j.method = m)
      ↔ m ∈ env.objectMethods ∧ qualifiesForBootstrap m = true)
    ∧ ∀ j, BEvent.submit j ∈ tr →
        j.comp_level = .full_optimization ∧ j.reason = .Bootstrap
        ∧ 0 < j.hot_count := by
  obtain ⟨htr, _⟩ := bootstrap_some env fuel tr r hm hrun
  subst htr
  constructor
  · rw [← method_mem_bootstrapSubmissions env.objectMethods m]
    constructor
    · rintro ⟨j, hj, hjm⟩
      exact ⟨j, (submit_mem_trace_iff _ j).mp hj, hjm⟩
    · rintro ⟨j, hj, hjm⟩
      exact ⟨j, (submit_mem_trace_iff _ j).mpr hj, hjm⟩
  · intro j hj
    obtain ⟨h1, h2, h3, _⟩ :=
      bootstrapSubmissions_shape env.objectMethods j
        ((submit_mem_trace_iff _ j).mp hj)
    exact ⟨h1, h2, by omega⟩

/-- Witness for C6 at a concrete two-method environment: the qualifying
method is submitted, with the mandated level, reason and positive count. -/
theorem c6_witness :
    envC6.interpreter_only = false
    ∧ ((∃ j, BEvent.submit j ∈ traceC6 ∧ j.method = mC6)
        ↔ mC6 ∈ envC6.objectMethods ∧ qualifiesForBootstrap mC6 = true)
    ∧ ∀ j, BEvent.submit j ∈ traceC6 →
        j.comp_level = .full_optimization ∧ j.reason = .Bootstrap
        ∧ 0 < j.hot_count := by
  have h := c6_bootstrap_submissions envC6 1 traceC6 (.ok ()) mC6 rfl rfl
  exact ⟨rfl, h.1, h.2⟩

/-- Claim C7: on drain completion the trace ends by clearing
`_bootstrapping` and then calling the bridge's finish notification, and the
notification's outcome (including failure) propagates to the caller. -/
theorem c7_flag_cleared_before_finish (env : BootstrapEnv) (fuel : Nat)
    (tr : List BEvent) (r : Except JVMCIError Unit)
    (hm : env.interpreter_only = false)
    (hrun : bootstrap env fuel = some (tr, r)) :
    (∃ pre, tr = pre
        ++ [BEvent.setBootstrapping false, BEvent.callBootstrapFinished])
    ∧ r = env.bootstrap_finished := by
  obtain ⟨htr, hr⟩ := bootstrap_some env fuel tr r hm hrun
  subst htr
  exact ⟨⟨BEvent.setBootstrapping true
            :: (bootstrapSubmissions env.objectMethods).map BEvent.submit, rfl⟩,
         hr⟩

/-- Witness for C7 at an environment whose finish notification fails: the
failure is returned and the flag-clear precedes the finish call. -/
theorem c7_witness :
    envC7.interpreter_only = false
    ∧ (∃ pre, traceC7 = pre
        ++ [BEvent.setBootstrapping false, BEvent.callBootstrapFinished])
    ∧ (Except.error (.bootstrapFinishedFailure 42) : Except JVMCIError Unit)
        = envC7.bootstrap_finished := by
  have h := c7_flag_cleared_before_finish envC7 1 traceC7
    (.error (.bootstrapFinishedFailure 42)) rfl rfl
  exact ⟨rfl, h.1, h.2⟩

end JVMCIModel
